import Mathlib

/-!
Verification of the label aggregation engine of the finish-finder repository
(`src/data/training/labeling_functions.py` and
`src/data/training/train_label_model.py`).

The embedding models one pandas row dict as an `Obs` whose fields hold an
optional dynamically typed Python value (`PyVal`).  Python exceptions inside a
labeling function (for example `int()` applied to a non-numeric string) are
modelled by `Option`: `none` is a raised exception, `some v` a returned vote.
Python floats are modelled by exact rationals.
-/

/-- Dynamically typed Python value as it can appear in a pandas row dict. -/
inductive PyVal where
  | none : PyVal
  | bool (b : Bool) : PyVal
  | int (n : ℤ) : PyVal
  | float (q : ℚ) : PyVal
  | nan : PyVal
  | str (s : String) : PyVal
deriving DecidableEq, Repr

/-- Python truthiness (`bool(v)`); note that `float('nan')` is truthy. -/
def pyTruthy : PyVal → Bool
  | .none => false
  | .bool b => b
  | .int n => n ≠ 0
  | .float q => q ≠ 0
  | .nan => true
  | .str s => s ≠ ""

/-- Python expression `v or 0`: `v` when truthy, else the int 0. -/
def pyOr0 (v : PyVal) : PyVal := if pyTruthy v then v else .int 0

/-- Python comparison `v == s` against a string literal: only a string of
equal contents compares equal; every other type (and NaN) compares unequal. -/
def pyEqStr (v : PyVal) (s : String) : Bool :=
  match v with
  | .str t => t = s
  | _ => false

/-- Python membership test `v in [True, 'True', 1, '1']` as used for the
`is_finish` and `implied_bonus` flags. `True == 1` in Python, so the bool
`True`, the int 1 and the float 1.0 all pass. -/
def pyIsOne (v : PyVal) : Bool :=
  match v with
  | .bool b => b
  | .int n => n = 1
  | .float q => q = 1
  | .str s => s = "True" || s = "1"
  | .nan => false
  | .none => false

/-- Python membership test `v in ['POTN', 'KOTN', 'SOTN']`. -/
def pyInBonusSet (v : PyVal) : Bool :=
  pyEqStr v "POTN" || pyEqStr v "KOTN" || pyEqStr v "SOTN"

/-- The check `pd.isna(v)`: true exactly for `None` and NaN. -/
def pd_isna : PyVal → Bool
  | .none => true
  | .nan => true
  | _ => false

/-- Truncation of a rational toward zero, matching `int()` on a Python float. -/
def ratTrunc (q : ℚ) : ℤ := if q < 0 then ⌈q⌉ else ⌊q⌋

/-- Model of Python `int(s)` on a string: an optional sign followed by a
nonempty digit run; anything else raises (`none`).  (The whitespace stripping
and the underscore separators Python also accepts are irrelevant to the
corpus and left out.) -/
def parseIntStr (s : String) : Option ℤ :=
  let cs := s.toList
  let sign : ℤ := match cs with
    | c :: _ => if c = '-' then -1 else 1
    | [] => 1
  let digits : List Char := match cs with
    | c :: rest => if c = '-' ∨ c = '+' then rest else cs
    | [] => []
  if digits ≠ [] ∧ digits.all (fun c => c.isDigit) then
    some (sign * ((digits.foldl (fun acc c => acc * 10 + (c.toNat - 48)) (0 : ℕ) : ℕ) : ℤ))
  else
    Option.none

/-- Model of Python `int(v)`; `none` is a raised `TypeError`/`ValueError`. -/
def pyToInt : PyVal → Option ℤ
  | .bool b => some (if b then 1 else 0)
  | .int n => some n
  | .float q => some (ratTrunc q)
  | .nan => Option.none
  | .none => Option.none
  | .str s => parseIntStr s

/-- Model of the Python comparison `v > q` against a float threshold (the
threshold floats of the source are represented by exact rationals).  Numbers
compare numerically, NaN compares false, a string or `None` raises. -/
def pyGtQ (v : PyVal) (q : ℚ) : Option Bool :=
  match v with
  | .int n => some (decide ((n : ℚ) > q))
  | .float r => some (decide (r > q))
  | .bool b => some (decide (((if b then 1 else 0) : ℚ) > q))
  | .nan => some false
  | .str _ => Option.none
  | .none => Option.none

/-- Model of `row.get(key, default)` on the row dict. -/
def pyGet (field : Option PyVal) (d : PyVal) : PyVal := field.getD d

/-- One pandas row dict restricted to the keys the labeling functions read.
A `none` field models a key that is absent from the dict. -/
structure Obs where
  fight_bonus : Option PyVal := Option.none
  fighter1_bonus : Option PyVal := Option.none
  fighter2_bonus : Option PyVal := Option.none
  implied_bonus : Option PyVal := Option.none
  is_finish : Option PyVal := Option.none
  round : Option PyVal := Option.none
  total_fight_time_seconds : Option PyVal := Option.none
  total_sig_strikes : Option PyVal := Option.none
  total_knockdowns : Option PyVal := Option.none
  total_control_time : Option PyVal := Option.none
  total_sig_strikes_z : Option PyVal := Option.none
deriving DecidableEq, Repr, Inhabited

/-- Vote constant `ABSTAIN = -1` of labeling_functions.py. -/
def ABSTAIN : ℤ := -1

/-- Vote constant `TIER_1_LOW = 0`. -/
def TIER_1_LOW : ℤ := 0

/-- Vote constant `TIER_2_AVERAGE = 1`. -/
def TIER_2_AVERAGE : ℤ := 1

/-- Vote constant `TIER_3_GOOD = 2`. -/
def TIER_3_GOOD : ℤ := 2

/-- Vote constant `TIER_4_EXCELLENT = 3`. -/
def TIER_4_EXCELLENT : ℤ := 3

/-- Vote constant `TIER_5_ELITE = 4`. -/
def TIER_5_ELITE : ℤ := 4

/-- The `THRESHOLDS` dict of labeling_functions.py. -/
structure Thresholds where
  low_volume : ℤ
  medium_volume : ℤ
  high_volume : ℤ
  very_high_volume : ℤ
  competitive_diff_max : ℤ
  one_sided_diff_min : ℤ
  high_action_finish : ℤ
  very_high_action_finish : ℤ
  grappling_control_min : ℤ

/-- The concrete threshold values of the source. -/
def THRESHOLDS : Thresholds :=
  { low_volume := 28
    medium_volume := 61
    high_volume := 104
    very_high_volume := 153
    competitive_diff_max := 30
    one_sided_diff_min := 50
    high_action_finish := 80
    very_high_action_finish := 100
    grappling_control_min := 300 }

/-- LF1 `lf_fotn_bonus`: Fight of the Night bonus yields Tier 5. -/
def lf_fotn_bonus (row : Obs) : Option ℤ :=
  let fight_bonus := pyGet row.fight_bonus (.str "")
  if pyEqStr fight_bonus "FOTN" then some TIER_5_ELITE else some ABSTAIN

/-- LF2 `lf_potn_bonus`: POTN/KOTN/SOTN bonus yields Tier 4. -/
def lf_potn_bonus (row : Obs) : Option ℤ :=
  let fight_bonus := pyGet row.fight_bonus (.str "")
  let fighter1_bonus := pyGet row.fighter1_bonus (.str "")
  let fighter2_bonus := pyGet row.fighter2_bonus (.str "")
  if pyInBonusSet fight_bonus then some TIER_4_EXCELLENT
  else if pyInBonusSet fighter1_bonus || pyInBonusSet fighter2_bonus then
    some TIER_4_EXCELLENT
  else some ABSTAIN

/-- LF2b `lf_implied_bonus`: implied bonus for pre-2014 fights yields Tier 4,
only when no official bonus is present. -/
def lf_implied_bonus (row : Obs) : Option ℤ :=
  let fight_bonus := pyGet row.fight_bonus (.str "")
  if ¬ pd_isna fight_bonus ∧ ¬ pyEqStr fight_bonus "" then some ABSTAIN
  else
    let implied := pyGet row.implied_bonus (.bool false)
    if pyIsOne implied then some TIER_4_EXCELLENT else some ABSTAIN

/-- LF3 `lf_early_finish`: early round-1 finish yields Tier 4 or 5.  The three
`int(...)` conversions can raise on malformed fields. -/
def lf_early_finish (row : Obs) : Option ℤ :=
  let is_finish := pyGet row.is_finish .none
  if pyIsOne is_finish then
    match pyToInt (pyOr0 (pyGet row.round (.int 0))) with
    | Option.none => Option.none
    | some fight_round =>
      match pyToInt (pyOr0 (pyGet row.total_fight_time_seconds (.int 0))) with
      | Option.none => Option.none
      | some fight_time =>
        match pyToInt (pyOr0 (pyGet row.total_sig_strikes (.int 0))) with
        | Option.none => Option.none
        | some sig_strikes =>
          if fight_round = 1 then
            if fight_time < 60 then
              if sig_strikes > 10 then some TIER_5_ELITE else some TIER_4_EXCELLENT
            else if fight_time < 180 ∧ sig_strikes ≥ 30 then some TIER_4_EXCELLENT
            else some ABSTAIN
          else some ABSTAIN
  else some ABSTAIN

/-- LF4 `lf_high_volume_competitive`: very high strike volume yields Tier 3,
Tier 4 with two or more knockdowns. -/
def lf_high_volume_competitive (row : Obs) : Option ℤ :=
  match pyToInt (pyOr0 (pyGet row.total_sig_strikes (.int 0))) with
  | Option.none => Option.none
  | some sig_strikes =>
    if sig_strikes > THRESHOLDS.very_high_volume then
      match pyToInt (pyOr0 (pyGet row.total_knockdowns (.int 0))) with
      | Option.none => Option.none
      | some knockdowns =>
        if knockdowns ≥ 2 then some TIER_4_EXCELLENT else some TIER_3_GOOD
    else some ABSTAIN

/-- LF4b `lf_high_volume_zscore`: era-adjusted strike z-score above 1.5 yields
Tier 4, above 1.28 yields Tier 3 (thresholds as exact rationals). -/
def lf_high_volume_zscore (row : Obs) : Option ℤ :=
  let strikes_z := pyGet row.total_sig_strikes_z .none
  if strikes_z = .none ∨ pd_isna strikes_z then some ABSTAIN
  else
    match pyGtQ strikes_z (3 / 2) with
    | Option.none => Option.none
    | some b1 =>
      if b1 then some TIER_4_EXCELLENT
      else
        match pyGtQ strikes_z (32 / 25) with
        | Option.none => Option.none
        | some b2 =>
          if b2 then some TIER_3_GOOD else some ABSTAIN

/-- LF5 `lf_finish_with_action`: finish with more than 100 strikes yields
Tier 4, with more than 80 yields Tier 3. -/
def lf_finish_with_action (row : Obs) : Option ℤ :=
  let is_finish := pyGet row.is_finish .none
  if ¬ pyIsOne is_finish then some ABSTAIN
  else
    match pyToInt (pyOr0 (pyGet row.total_sig_strikes (.int 0))) with
    | Option.none => Option.none
    | some sig_strikes =>
      if sig_strikes > THRESHOLDS.very_high_action_finish then some TIER_4_EXCELLENT
      else if sig_strikes > THRESHOLDS.high_action_finish then some TIER_3_GOOD
      else some ABSTAIN

/-- LF6 `lf_any_finish`: any finish without an official fight bonus yields
Tier 3. -/
def lf_any_finish (row : Obs) : Option ℤ :=
  let is_finish := pyGet row.is_finish .none
  let fight_bonus := pyGet row.fight_bonus (.str "")
  let fight_bonus := if pd_isna fight_bonus then .str "" else fight_bonus
  if pyIsOne is_finish ∧ ¬ pyTruthy fight_bonus then some TIER_3_GOOD
  else some ABSTAIN

/-- LF7 `lf_knockdown_present`: three or more knockdowns yield Tier 4, two
yield Tier 3. -/
def lf_knockdown_present (row : Obs) : Option ℤ :=
  match pyToInt (pyOr0 (pyGet row.total_knockdowns (.int 0))) with
  | Option.none => Option.none
  | some knockdowns =>
    if knockdowns ≥ 3 then some TIER_4_EXCELLENT
    else if knockdowns ≥ 2 then some TIER_3_GOOD
    else some ABSTAIN

/-- LF8 `lf_low_volume`: very low strike volume yields Tier 1 or 2, except
for fast finishes, which abstain. -/
def lf_low_volume (row : Obs) : Option ℤ :=
  match pyToInt (pyOr0 (pyGet row.total_sig_strikes (.int 0))) with
  | Option.none => Option.none
  | some sig_strikes =>
    let is_finish := pyGet row.is_finish .none
    if pyIsOne is_finish then
      match pyToInt (pyOr0 (pyGet row.total_fight_time_seconds (.int 0))) with
      | Option.none => Option.none
      | some fight_time =>
        if fight_time < 180 then some ABSTAIN
        else if sig_strikes < THRESHOLDS.low_volume then some TIER_1_LOW
        else if sig_strikes < THRESHOLDS.medium_volume then some TIER_2_AVERAGE
        else some ABSTAIN
    else
      if sig_strikes < THRESHOLDS.low_volume then some TIER_1_LOW
      else if sig_strikes < THRESHOLDS.medium_volume then some TIER_2_AVERAGE
      else some ABSTAIN

/-- LF9 `lf_one_sided_grappling`: control-time dominance with low strike
volume yields Tier 1 or 2. -/
def lf_one_sided_grappling (row : Obs) : Option ℤ :=
  match pyToInt (pyOr0 (pyGet row.total_control_time (.int 0))) with
  | Option.none => Option.none
  | some control_time =>
    match pyToInt (pyOr0 (pyGet row.total_sig_strikes (.int 0))) with
    | Option.none => Option.none
    | some sig_strikes =>
      match pyToInt (pyOr0 (pyGet row.total_fight_time_seconds (.int 0))) with
      | Option.none => Option.none
      | some fight_time =>
        if fight_time = 0 then some ABSTAIN
        else
          let control_pct : ℚ := (control_time : ℚ) / (fight_time : ℚ)
          if control_pct > 3 / 5 ∧ sig_strikes < THRESHOLDS.medium_volume then
            some TIER_1_LOW
          else if control_time > THRESHOLDS.grappling_control_min ∧
              sig_strikes < THRESHOLDS.high_volume then
            some TIER_2_AVERAGE
          else some ABSTAIN

/-- LF10 `lf_decision_low_action`: decision with below-high strike volume
yields Tier 2. -/
def lf_decision_low_action (row : Obs) : Option ℤ :=
  let is_finish := pyGet row.is_finish .none
  if pyIsOne is_finish then some ABSTAIN
  else
    match pyToInt (pyOr0 (pyGet row.total_sig_strikes (.int 0))) with
    | Option.none => Option.none
    | some sig_strikes =>
      if sig_strikes < THRESHOLDS.high_volume then some TIER_2_AVERAGE
      else some ABSTAIN

/-- The registry `LABELING_FUNCTIONS`, in source order. -/
def LABELING_FUNCTIONS : List (Obs → Option ℤ) :=
  [lf_fotn_bonus,
   lf_potn_bonus,
   lf_implied_bonus,
   lf_early_finish,
   lf_high_volume_competitive,
   lf_high_volume_zscore,
   lf_finish_with_action,
   lf_any_finish,
   lf_knockdown_present,
   lf_low_volume,
   lf_one_sided_grappling,
   lf_decision_low_action]

/-- The vote matrix builder `apply_labeling_functions`: every registered
function is applied to every row; a raised exception (`none`) leaves the
cell at its `ABSTAIN` initialization. -/
def apply_labeling_functions (df : List Obs) : List (List ℤ) :=
  df.map (fun row => LABELING_FUNCTIONS.map (fun lf => (lf row).getD ABSTAIN))

/-- The vote matrix builder together with its stream of log records.  The
`except` handler in the source only assigns `ABSTAIN` to the cell and
contains no logging call, so the log component is always empty. -/
def apply_labeling_functions_log (df : List Obs) : List (List ℤ) × List String :=
  (apply_labeling_functions df, [])

/-- Helper for `firstOccs`: the values of the first list that are not in
`seen`, in order of first occurrence. -/
def firstOccsAux : List ℤ → List ℤ → List ℤ
  | [], _ => []
  | x :: xs, seen =>
    if x ∈ seen then firstOccsAux xs seen else x :: firstOccsAux xs (x :: seen)

/-- The distinct values of a list in order of first occurrence; this is the
key order of a Python `Counter` built by iterating the list. -/
def firstOccs (vs : List ℤ) : List ℤ := firstOccsAux vs []

/-- Python `Counter(vs).most_common(1)[0][0]`: the key with the maximal count;
`most_common` sorts stably, so ties go to the key inserted first, that is the
value occurring first in `vs`.  Defined only for nonempty `vs` (the 0 default
is never reached by the aggregator). -/
def mostCommon (vs : List ℤ) : ℤ :=
  match firstOccs vs with
  | [] => 0
  | k :: ks => ks.foldl (fun best t => if vs.count t > vs.count best then t else best) k

/-- One row of `majority_vote_aggregate`: the label and the probability
vector for a single vote-matrix row. -/
def majority_vote_row (row : List ℤ) : ℤ × List ℚ :=
  let row_votes := row.filter (fun v => v ≠ ABSTAIN)
  if row_votes.length = 0 then
    (TIER_2_AVERAGE, [0.1, 0.6, 0.2, 0.1, 0.0])
  else
    let total_votes := row_votes.length
    (mostCommon row_votes,
     (List.range 5).map (fun (tier : ℕ) =>
       ((row_votes.count ((tier : ℤ)) : ℚ) / (total_votes : ℚ))))

/-- The fallback aggregator `majority_vote_aggregate` of train_label_model.py. -/
def majority_vote_aggregate (L : List (List ℤ)) : List (ℤ × List ℚ) :=
  L.map majority_vote_row

/-- One row of `hierarchical_aggregate`: the strict priority chain of
train_label_model.py evaluated on a single width-12 vote-matrix row. -/
def hierarchical_row (row : List ℤ) : ℤ × List ℚ :=
  if row.getD 0 ABSTAIN ≠ ABSTAIN then
    (TIER_5_ELITE, [0.0, 0.0, 0.0, 0.05, 0.95])
  else if row.getD 1 ABSTAIN ≠ ABSTAIN then
    (TIER_4_EXCELLENT, [0.0, 0.0, 0.05, 0.90, 0.05])
  else if row.getD 2 ABSTAIN ≠ ABSTAIN then
    (TIER_4_EXCELLENT, [0.0, 0.0, 0.10, 0.80, 0.10])
  else if row.getD 3 ABSTAIN ≠ ABSTAIN then
    (if row.getD 3 ABSTAIN = TIER_5_ELITE then
      (TIER_5_ELITE, [0.0, 0.0, 0.05, 0.15, 0.80])
    else
      (TIER_4_EXCELLENT, [0.0, 0.0, 0.10, 0.75, 0.15]))
  else if row.getD 5 ABSTAIN ≠ ABSTAIN then
    (if row.getD 5 ABSTAIN = TIER_4_EXCELLENT then
      (TIER_4_EXCELLENT, [0.0, 0.05, 0.15, 0.70, 0.10])
    else
      (TIER_3_GOOD, [0.0, 0.10, 0.65, 0.20, 0.05]))
  else if row.getD 6 ABSTAIN ≠ ABSTAIN then
    (if row.getD 6 ABSTAIN = TIER_4_EXCELLENT then
      (TIER_4_EXCELLENT, [0.0, 0.05, 0.15, 0.70, 0.10])
    else
      (TIER_3_GOOD, [0.0, 0.10, 0.65, 0.20, 0.05]))
  else if row.getD 7 ABSTAIN ≠ ABSTAIN ∨ row.getD 8 ABSTAIN ≠ ABSTAIN then
    (TIER_3_GOOD, [0.05, 0.15, 0.60, 0.15, 0.05])
  else if row.getD 4 ABSTAIN ≠ ABSTAIN then
    (TIER_3_GOOD, [0.0, 0.15, 0.60, 0.20, 0.05])
  else
    let low_volume_vote := row.getD 9 ABSTAIN
    let one_sided_vote := row.getD 10 ABSTAIN
    let decision_vote := row.getD 11 ABSTAIN
    if low_volume_vote = TIER_1_LOW ∨ one_sided_vote = TIER_1_LOW then
      (TIER_1_LOW, [0.70, 0.20, 0.08, 0.02, 0.0])
    else if low_volume_vote = TIER_2_AVERAGE ∨ one_sided_vote = TIER_2_AVERAGE then
      (TIER_2_AVERAGE, [0.25, 0.55, 0.15, 0.05, 0.0])
    else if decision_vote ≠ ABSTAIN then
      (TIER_2_AVERAGE, [0.20, 0.55, 0.20, 0.05, 0.0])
    else
      (TIER_2_AVERAGE, [0.15, 0.50, 0.25, 0.08, 0.02])

/-- The primary aggregator `hierarchical_aggregate` of train_label_model.py.
The dataframe argument is part of the source signature but is never read. -/
def hierarchical_aggregate (L : List (List ℤ)) (df : List Obs) : List (ℤ × List ℚ) :=
  L.map hierarchical_row

/-- The spec formula `argmax(probabilities)` with the numpy convention: the
first index attaining the maximum. -/
def spec_argmax (ps : List ℚ) : ℕ :=
  match ps with
  | [] => 0
  | p :: rest =>
    (rest.foldl
      (fun acc q => if q > acc.2.2 then (acc.1 + 1, acc.1 + 1, q) else (acc.1 + 1, acc.2.1, acc.2.2))
      ((0 : ℕ), (0 : ℕ), p)).2.1

/-- Position of the first occurrence of `a` in a list (the list length when
`a` is absent); formalizes the "first encountered scanning the row" order of
the spec. -/
def firstIdx : List ℤ → ℤ → ℕ
  | [], _ => 0
  | x :: xs, a => if x = a then 0 else firstIdx xs a + 1

/-- Observation with every field at its default/zero value: empty bonus
strings, flags false, all counters zero, no era-adjusted z-score. -/
def obs_default : Obs :=
  { fight_bonus := some (.str "")
    fighter1_bonus := some (.str "")
    fighter2_bonus := some (.str "")
    implied_bonus := some (.bool false)
    is_finish := some (.bool false)
    round := some (.int 0)
    total_fight_time_seconds := some (.int 0)
    total_sig_strikes := some (.int 0)
    total_knockdowns := some (.int 0)
    total_control_time := some (.int 0)
    total_sig_strikes_z := Option.none }

/-- Decision bout with two knockdowns and 20 significant strikes: the three
labeling functions that fire (knockdowns, low volume, low-action decision)
vote for three distinct tiers, each exactly once. -/
def obs_tie : Obs :=
  { fight_bonus := some (.str "")
    is_finish := some (.bool false)
    total_sig_strikes := some (.int 20)
    total_knockdowns := some (.int 2) }

/-- The scenario of the spec for the z-score rule: 200 significant strikes,
no finish, era-adjusted z-score 1.6, no recognition, no knockdowns. -/
def obs_zscore : Obs :=
  { fight_bonus := some (.str "")
    is_finish := some (.bool false)
    round := some (.int 3)
    total_fight_time_seconds := some (.int 900)
    total_sig_strikes := some (.int 200)
    total_knockdowns := some (.int 0)
    total_control_time := some (.int 0)
    total_sig_strikes_z := some (.float (8 / 5)) }

/-- Observation whose `round` field holds a non-numeric string: inside
`lf_early_finish` the conversion `int(row.get('round', 0) or 0)` raises a
`ValueError` on it. -/
def obs_malformed : Obs :=
  { is_finish := some (.bool true)
    round := some (.str "three") }

/-! Helper lemmas: the label entry of each fixed probability vector of the
hierarchical chain carries at least half of the mass and dominates every
other entry. -/

lemma conf_vec_p1 : (1 : ℚ) / 2 ≤ 0.95 ∧ ∀ q ∈ [(0.0 : ℚ), 0.0, 0.0, 0.05, 0.95], q ≤ (0.95 : ℚ) := by
  refine ⟨by norm_num, ?_⟩
  intro q hq
  fin_cases hq <;> norm_num

lemma conf_vec_p2 : (1 : ℚ) / 2 ≤ 0.90 ∧ ∀ q ∈ [(0.0 : ℚ), 0.0, 0.05, 0.90, 0.05], q ≤ (0.90 : ℚ) := by
  refine ⟨by norm_num, ?_⟩
  intro q hq
  fin_cases hq <;> norm_num

lemma conf_vec_p3 : (1 : ℚ) / 2 ≤ 0.80 ∧ ∀ q ∈ [(0.0 : ℚ), 0.0, 0.10, 0.80, 0.10], q ≤ (0.80 : ℚ) := by
  refine ⟨by norm_num, ?_⟩
  intro q hq
  fin_cases hq <;> norm_num

lemma conf_vec_p4a : (1 : ℚ) / 2 ≤ 0.80 ∧ ∀ q ∈ [(0.0 : ℚ), 0.0, 0.05, 0.15, 0.80], q ≤ (0.80 : ℚ) := by
  refine ⟨by norm_num, ?_⟩
  intro q hq
  fin_cases hq <;> norm_num

lemma conf_vec_p4b : (1 : ℚ) / 2 ≤ 0.75 ∧ ∀ q ∈ [(0.0 : ℚ), 0.0, 0.10, 0.75, 0.15], q ≤ (0.75 : ℚ) := by
  refine ⟨by norm_num, ?_⟩
  intro q hq
  fin_cases hq <;> norm_num

lemma conf_vec_p5a : (1 : ℚ) / 2 ≤ 0.70 ∧ ∀ q ∈ [(0.0 : ℚ), 0.05, 0.15, 0.70, 0.10], q ≤ (0.70 : ℚ) := by
  refine ⟨by norm_num, ?_⟩
  intro q hq
  fin_cases hq <;> norm_num

lemma conf_vec_p5b : (1 : ℚ) / 2 ≤ 0.65 ∧ ∀ q ∈ [(0.0 : ℚ), 0.10, 0.65, 0.20, 0.05], q ≤ (0.65 : ℚ) := by
  refine ⟨by norm_num, ?_⟩
  intro q hq
  fin_cases hq <;> norm_num

lemma conf_vec_p7 : (1 : ℚ) / 2 ≤ 0.60 ∧ ∀ q ∈ [(0.05 : ℚ), 0.15, 0.60, 0.15, 0.05], q ≤ (0.60 : ℚ) := by
  refine ⟨by norm_num, ?_⟩
  intro q hq
  fin_cases hq <;> norm_num

lemma conf_vec_p8 : (1 : ℚ) / 2 ≤ 0.60 ∧ ∀ q ∈ [(0.0 : ℚ), 0.15, 0.60, 0.20, 0.05], q ≤ (0.60 : ℚ) := by
  refine ⟨by norm_num, ?_⟩
  intro q hq
  fin_cases hq <;> norm_num

lemma conf_vec_n1 : (1 : ℚ) / 2 ≤ 0.70 ∧ ∀ q ∈ [(0.70 : ℚ), 0.20, 0.08, 0.02, 0.0], q ≤ (0.70 : ℚ) := by
  refine ⟨by norm_num, ?_⟩
  intro q hq
  fin_cases hq <;> norm_num

lemma conf_vec_n2 : (1 : ℚ) / 2 ≤ 0.55 ∧ ∀ q ∈ [(0.25 : ℚ), 0.55, 0.15, 0.05, 0.0], q ≤ (0.55 : ℚ) := by
  refine ⟨by norm_num, ?_⟩
  intro q hq
  fin_cases hq <;> norm_num

lemma conf_vec_n3 : (1 : ℚ) / 2 ≤ 0.55 ∧ ∀ q ∈ [(0.20 : ℚ), 0.55, 0.20, 0.05, 0.0], q ≤ (0.55 : ℚ) := by
  refine ⟨by norm_num, ?_⟩
  intro q hq
  fin_cases hq <;> norm_num

lemma conf_vec_n4 : (1 : ℚ) / 2 ≤ 0.50 ∧ ∀ q ∈ [(0.15 : ℚ), 0.50, 0.25, 0.08, 0.02], q ≤ (0.50 : ℚ) := by
  refine ⟨by norm_num, ?_⟩
  intro q hq
  fin_cases hq <;> norm_num

/-- Case enumeration for the hierarchical chain: every row resolves to one of
the thirteen distinct (label, probability vector) pairs of the source. -/
lemma hierarchical_row_cases (row : List ℤ) :
    hierarchical_row row = (TIER_5_ELITE, [0.0, 0.0, 0.0, 0.05, 0.95]) ∨
    hierarchical_row row = (TIER_4_EXCELLENT, [0.0, 0.0, 0.05, 0.90, 0.05]) ∨
    hierarchical_row row = (TIER_4_EXCELLENT, [0.0, 0.0, 0.10, 0.80, 0.10]) ∨
    hierarchical_row row = (TIER_5_ELITE, [0.0, 0.0, 0.05, 0.15, 0.80]) ∨
    hierarchical_row row = (TIER_4_EXCELLENT, [0.0, 0.0, 0.10, 0.75, 0.15]) ∨
    hierarchical_row row = (TIER_4_EXCELLENT, [0.0, 0.05, 0.15, 0.70, 0.10]) ∨
    hierarchical_row row = (TIER_3_GOOD, [0.0, 0.10, 0.65, 0.20, 0.05]) ∨
    hierarchical_row row = (TIER_3_GOOD, [0.05, 0.15, 0.60, 0.15, 0.05]) ∨
    hierarchical_row row = (TIER_3_GOOD, [0.0, 0.15, 0.60, 0.20, 0.05]) ∨
    hierarchical_row row = (TIER_1_LOW, [0.70, 0.20, 0.08, 0.02, 0.0]) ∨
    hierarchical_row row = (TIER_2_AVERAGE, [0.25, 0.55, 0.15, 0.05, 0.0]) ∨
    hierarchical_row row = (TIER_2_AVERAGE, [0.20, 0.55, 0.20, 0.05, 0.0]) ∨
    hierarchical_row row = (TIER_2_AVERAGE, [0.15, 0.50, 0.25, 0.08, 0.02]) := by
  unfold hierarchical_row
  by_cases h0 : row.getD 0 ABSTAIN ≠ ABSTAIN
  · rw [if_pos h0]; exact Or.inl rfl
  rw [if_neg h0]
  by_cases h1 : row.getD 1 ABSTAIN ≠ ABSTAIN
  · rw [if_pos h1]; right; exact Or.inl rfl
  rw [if_neg h1]
  by_cases h2 : row.getD 2 ABSTAIN ≠ ABSTAIN
  · rw [if_pos h2]; right; right; exact Or.inl rfl
  rw [if_neg h2]
  by_cases h3 : row.getD 3 ABSTAIN ≠ ABSTAIN
  · rw [if_pos h3]
    by_cases h3e : row.getD 3 ABSTAIN = TIER_5_ELITE
    · rw [if_pos h3e]; right; right; right; exact Or.inl rfl
    · rw [if_neg h3e]; right; right; right; right; exact Or.inl rfl
  rw [if_neg h3]
  by_cases h5 : row.getD 5 ABSTAIN ≠ ABSTAIN
  · rw [if_pos h5]
    by_cases h5e : row.getD 5 ABSTAIN = TIER_4_EXCELLENT
    · rw [if_pos h5e]; right; right; right; right; right; exact Or.inl rfl
    · rw [if_neg h5e]; right; right; right; right; right; right; exact Or.inl rfl
  rw [if_neg h5]
  by_cases h6 : row.getD 6 ABSTAIN ≠ ABSTAIN
  · rw [if_pos h6]
    by_cases h6e : row.getD 6 ABSTAIN = TIER_4_EXCELLENT
    · rw [if_pos h6e]; right; right; right; right; right; exact Or.inl rfl
    · rw [if_neg h6e]; right; right; right; right; right; right; exact Or.inl rfl
  rw [if_neg h6]
  by_cases h78 : row.getD 7 ABSTAIN ≠ ABSTAIN ∨ row.getD 8 ABSTAIN ≠ ABSTAIN
  · rw [if_pos h78]; right; right; right; right; right; right; right; exact Or.inl rfl
  rw [if_neg h78]
  by_cases h4 : row.getD 4 ABSTAIN ≠ ABSTAIN
  · rw [if_pos h4]
    right; right; right; right; right; right; right; right; exact Or.inl rfl
  rw [if_neg h4]
  by_cases hn1 : row.getD 9 ABSTAIN = TIER_1_LOW ∨ row.getD 10 ABSTAIN = TIER_1_LOW
  · rw [if_pos hn1]
    right; right; right; right; right; right; right; right; right; exact Or.inl rfl
  rw [if_neg hn1]
  by_cases hn2 : row.getD 9 ABSTAIN = TIER_2_AVERAGE ∨ row.getD 10 ABSTAIN = TIER_2_AVERAGE
  · rw [if_pos hn2]
    right; right; right; right; right; right; right; right; right; right; exact Or.inl rfl
  rw [if_neg hn2]
  by_cases hn3 : row.getD 11 ABSTAIN ≠ ABSTAIN
  · rw [if_pos hn3]
    right; right; right; right; right; right; right; right; right; right; right
    exact Or.inl rfl
  · rw [if_neg hn3]
    right; right; right; right; right; right; right; right; right; right; right
    exact Or.inr rfl

/-- Claim C10: for every vote matrix row, the probability vector emitted by
the hierarchical aggregator puts at least probability 1/2 on the winning
tier, and the winning tier dominates every entry of the vector, so the
hierarchical confidence is never below 0.5. -/
theorem c10_hierarchical_confidence_at_least_half (row : List ℤ) :
    (1 : ℚ) / 2 ≤ (hierarchical_row row).2.getD (hierarchical_row row).1.toNat 0 ∧
    ∀ q ∈ (hierarchical_row row).2,
      q ≤ (hierarchical_row row).2.getD (hierarchical_row row).1.toNat 0 := by
  rcases hierarchical_row_cases row with h|h|h|h|h|h|h|h|h|h|h|h|h <;> rw [h]
  · exact conf_vec_p1
  · exact conf_vec_p2
  · exact conf_vec_p3
  · exact conf_vec_p4a
  · exact conf_vec_p4b
  · exact conf_vec_p5a
  · exact conf_vec_p5b
  · exact conf_vec_p7
  · exact conf_vec_p8
  · exact conf_vec_n1
  · exact conf_vec_n2
  · exact conf_vec_n3
  · exact conf_vec_n4

/-- Claim C2: for every vote matrix row whose first column (the FOTN
labeling function) is non-abstaining, the hierarchical aggregator emits
Tier 5 with the fixed near-certain vector, independently of every other
column; and the FOTN labeling function fires exactly when the observation's
fight_bonus field is the string FOTN. -/
theorem c2_fotn_always_tier5 :
    (∀ row : List ℤ, row.getD 0 ABSTAIN ≠ ABSTAIN →
      hierarchical_row row = (TIER_5_ELITE, [0.0, 0.0, 0.0, 0.05, 0.95])) ∧
    (∀ obs : Obs, lf_fotn_bonus obs = some TIER_5_ELITE ↔
      obs.fight_bonus = some (PyVal.str "FOTN")) := by
  constructor
  · intro row h
    unfold hierarchical_row
    rw [if_pos h]
  · intro obs
    simp only [lf_fotn_bonus, pyGet]
    cases hfb : obs.fight_bonus with
    | none => simp [pyEqStr, TIER_5_ELITE, ABSTAIN]
    | some v =>
      cases v <;> simp [pyEqStr, TIER_5_ELITE, ABSTAIN]

/-- Witness for C2 at a concrete row and a concrete FOTN observation. -/
theorem c2_fotn_always_tier5_witness :
    hierarchical_row [4, 3, 3, 4, 2, 3, 2, 2, 3, 0, 0, 1] =
      (TIER_5_ELITE, [0.0, 0.0, 0.0, 0.05, 0.95]) ∧
    lf_fotn_bonus { fight_bonus := some (PyVal.str "FOTN") } = some TIER_5_ELITE :=
  ⟨c2_fotn_always_tier5.1 _ (by decide),
   (c2_fotn_always_tier5.2 { fight_bonus := some (PyVal.str "FOTN") }).mpr rfl⟩

/-- Claim C3 (counterexample): on the all-default observation the
labeling functions do not all abstain (the low-volume function votes
Tier 1, the low-action-decision function votes Tier 2), and the
hierarchical aggregator resolves to Tier 1 with confidence 0.70 — not to
the claimed Tier 2 terminal fallback with confidence at most 0.5. -/
theorem c3_default_counterexample :
    apply_labeling_functions [obs_default] =
      [[-1, -1, -1, -1, -1, -1, -1, -1, -1, 0, -1, 1]] ∧
    hierarchical_aggregate (apply_labeling_functions [obs_default]) [obs_default] =
      [(TIER_1_LOW, [0.70, 0.20, 0.08, 0.02, 0.0])] ∧
    TIER_1_LOW ≠ TIER_2_AVERAGE ∧
    ¬ ((0.70 : ℚ) ≤ 1 / 2) := by
  refine ⟨rfl, rfl, by decide, by norm_num⟩

/-- Claim C3 (amended): the all-default observation yields the vote row in
which the low-volume function votes Tier 1 and the low-action-decision
function votes Tier 2; the hierarchical aggregator resolves it through the
negative-signal branch to Tier 1 with confidence 0.70.  The terminal
fallback (Tier 2, maximal probability 0.50 ≤ 0.5) applies exactly to rows
in which all twelve functions abstain. -/
theorem c3_default_amended :
    apply_labeling_functions [obs_default] =
      [[-1, -1, -1, -1, -1, -1, -1, -1, -1, 0, -1, 1]] ∧
    hierarchical_row [-1, -1, -1, -1, -1, -1, -1, -1, -1, 0, -1, 1] =
      (TIER_1_LOW, [0.70, 0.20, 0.08, 0.02, 0.0]) ∧
    hierarchical_row (List.replicate 12 ABSTAIN) =
      (TIER_2_AVERAGE, [0.15, 0.50, 0.25, 0.08, 0.02]) ∧
    ((0.50 : ℚ) ≤ 1 / 2 ∧ ∀ q ∈ [(0.15 : ℚ), 0.50, 0.25, 0.08, 0.02], q ≤ (0.50 : ℚ)) := by
  refine ⟨rfl, rfl, rfl, by norm_num, ?_⟩
  intro q hq
  fin_cases hq <;> norm_num

/-- Claim C7: every vote matrix row in which all twelve labeling functions
abstained is mapped by the majority-vote aggregator to the fixed default:
Tier 2 with the diffuse vector [0.1, 0.6, 0.2, 0.1, 0.0]. -/
theorem c7_all_abstain_majority_default (row : List ℤ) (hlen : row.length = 12)
    (habs : ∀ v ∈ row, v = ABSTAIN) :
    majority_vote_row row = (TIER_2_AVERAGE, [0.1, 0.6, 0.2, 0.1, 0.0]) := by
  have hfil : row.filter (fun v => v ≠ ABSTAIN) = [] := by
    rw [List.filter_eq_nil_iff]
    intro a ha
    simp [habs a ha]
  simp only [majority_vote_row, hfil]
  rfl

/-- Witness for C7 at the concrete all-abstain row. -/
theorem c7_all_abstain_majority_default_witness :
    majority_vote_row (List.replicate 12 ABSTAIN) =
      (TIER_2_AVERAGE, [0.1, 0.6, 0.2, 0.1, 0.0]) :=
  c7_all_abstain_majority_default _ (by decide) (by decide)

/-- Claim C9: both aggregators are pure functions of the vote matrix:
re-running them on the same matrix gives identical output, and the
hierarchical aggregator's result does not depend on its dataframe argument
(the only other input in its source signature). -/
theorem c9_aggregation_deterministic (L : List (List ℤ)) (df₁ df₂ : List Obs) :
    hierarchical_aggregate L df₁ = hierarchical_aggregate L df₂ ∧
    hierarchical_aggregate L df₁ = hierarchical_aggregate L df₁ ∧
    majority_vote_aggregate L = majority_vote_aggregate L :=
  ⟨rfl, rfl, rfl⟩

/-- Claim C4 (counterexample): the fourth registered labeling function,
lf_early_finish, raises (modelled as `none`) on an observation whose round
field holds a non-numeric string, so labeling functions are not total:
failures are not converted to abstain inside the function itself. -/
theorem c4_lf_not_total_counterexample :
    LABELING_FUNCTIONS[3]? = some lf_early_finish ∧
    lf_early_finish obs_malformed = Option.none :=
  ⟨rfl, rfl⟩

/-- Claim C6 (counterexample): on a batch containing the malformed
observation, the builder records abstain for the raising cell and completes
the batch, but its log stream is empty: the except handler of the source
swallows the exception without logging anything. -/
theorem c6_no_logging_counterexample :
    apply_labeling_functions_log [obs_malformed] =
      ([[-1, -1, -1, -1, -1, -1, -1, 2, -1, -1, -1, -1]], []) ∧
    lf_early_finish obs_malformed = Option.none ∧
    (apply_labeling_functions_log [obs_malformed]).2.length = 0 :=
  ⟨rfl, rfl, rfl⟩

/-- Claim C8: on the observation with 200 significant strikes, no finish and
era-adjusted z-score 1.6, both volume functions fire — the absolute rule
with a Tier 3 vote, the z-score rule with a Tier 4 vote — and the
hierarchical aggregator resolves through the z-score priority to Tier 4. -/
theorem c8_zscore_rule_resolves_tier4 :
    apply_labeling_functions [obs_zscore] =
      [[-1, -1, -1, -1, 2, 3, -1, -1, -1, -1, -1, -1]] ∧
    ([-1, -1, -1, -1, 2, 3, -1, -1, -1, -1, -1, -1] : List ℤ).getD 4 ABSTAIN = TIER_3_GOOD ∧
    ([-1, -1, -1, -1, 2, 3, -1, -1, -1, -1, -1, -1] : List ℤ).getD 5 ABSTAIN = TIER_4_EXCELLENT ∧
    hierarchical_aggregate [[-1, -1, -1, -1, 2, 3, -1, -1, -1, -1, -1, -1]] [obs_zscore] =
      [(TIER_4_EXCELLENT, [0.0, 0.05, 0.15, 0.70, 0.10])] := by
  have hgt : ((8 : ℚ) / 5 > 3 / 2) := by norm_num
  have h5 : lf_high_volume_zscore obs_zscore = some TIER_4_EXCELLENT := by
    simp [lf_high_volume_zscore, obs_zscore, pyGet, pd_isna, pyGtQ, hgt]
  have h10 : lf_one_sided_grappling obs_zscore = some ABSTAIN := by
    have hndiv : ¬ ((0 : ℚ) / 900 > 3 / 5) := by norm_num
    simp [lf_one_sided_grappling, obs_zscore, pyGet, pyOr0, pyTruthy, pyToInt,
      THRESHOLDS, hndiv]
  refine ⟨?_, by decide, by decide, rfl⟩
  simp only [apply_labeling_functions, LABELING_FUNCTIONS, List.map, h5, h10]
  rfl

/-- Claim C1 (counterexample): on the vote row produced by the tie
observation, the majority-vote aggregator emits Tier 3 (label 2, the tier
first encountered among the three tied voters), while the first index
attaining the maximum of its probability vector [1/3, 1/3, 1/3, 0, 0] is 0,
so the emitted tier is not argmax-consistent in the numpy sense. -/
theorem c1_argmax_counterexample :
    apply_labeling_functions [obs_tie] =
      [[-1, -1, -1, -1, -1, -1, -1, -1, 2, 0, -1, 1]] ∧
    (majority_vote_row [-1, -1, -1, -1, -1, -1, -1, -1, 2, 0, -1, 1]).1 = TIER_3_GOOD ∧
    (majority_vote_row [-1, -1, -1, -1, -1, -1, -1, -1, 2, 0, -1, 1]).2 =
      [1 / 3, 1 / 3, 1 / 3, 0, 0] ∧
    spec_argmax (majority_vote_row [-1, -1, -1, -1, -1, -1, -1, -1, 2, 0, -1, 1]).2 = 0 ∧
    (majority_vote_row [-1, -1, -1, -1, -1, -1, -1, -1, 2, 0, -1, 1]).1 ≠
      ((spec_argmax (majority_vote_row [-1, -1, -1, -1, -1, -1, -1, -1, 2, 0, -1, 1]).2 : ℕ) : ℤ) := by
  have h2 : (majority_vote_row [-1, -1, -1, -1, -1, -1, -1, -1, 2, 0, -1, 1]).2 =
      [1 / 3, 1 / 3, 1 / 3, 0, 0] := by
    have hr : List.range 5 = [0, 1, 2, 3, 4] := rfl
    simp only [majority_vote_row, ABSTAIN, mostCommon, firstOccs, firstOccsAux, hr]
    norm_num [List.count_cons, TIER_2_AVERAGE]
  have h1 : (majority_vote_row [-1, -1, -1, -1, -1, -1, -1, -1, 2, 0, -1, 1]).1 =
      TIER_3_GOOD := rfl
  have ha : spec_argmax (majority_vote_row [-1, -1, -1, -1, -1, -1, -1, -1, 2, 0, -1, 1]).2 = 0 := by
    rw [h2]
    norm_num [spec_argmax]
  refine ⟨rfl, h1, h2, ha, ?_⟩
  rw [h1, ha]
  decide

/-- Any vote the function `lf_fotn_bonus` returns (rather than raises) lies in
the legal vote set \x7b-1, 0, 1, 2, 3, 4\x7d. -/
lemma lf_fotn_bonus_vote_range (obs : Obs) (v : ℤ) (h : lf_fotn_bonus obs = some v) :
    -1 ≤ v ∧ v ≤ 4 := by
  simp only [lf_fotn_bonus] at h
  repeat' (first
    | exact Option.noConfusion h
    | (simp only [Option.some.injEq, ABSTAIN, TIER_1_LOW, TIER_2_AVERAGE, TIER_3_GOOD,
        TIER_4_EXCELLENT, TIER_5_ELITE] at h; omega)
    | split at h)

/-- Any vote the function `lf_potn_bonus` returns (rather than raises) lies in
the legal vote set \x7b-1, 0, 1, 2, 3, 4\x7d. -/
lemma lf_potn_bonus_vote_range (obs : Obs) (v : ℤ) (h : lf_potn_bonus obs = some v) :
    -1 ≤ v ∧ v ≤ 4 := by
  simp only [lf_potn_bonus] at h
  repeat' (first
    | exact Option.noConfusion h
    | (simp only [Option.some.injEq, ABSTAIN, TIER_1_LOW, TIER_2_AVERAGE, TIER_3_GOOD,
        TIER_4_EXCELLENT, TIER_5_ELITE] at h; omega)
    | split at h)

/-- Any vote the function `lf_implied_bonus` returns (rather than raises) lies in
the legal vote set \x7b-1, 0, 1, 2, 3, 4\x7d. -/
lemma lf_implied_bonus_vote_range (obs : Obs) (v : ℤ) (h : lf_implied_bonus obs = some v) :
    -1 ≤ v ∧ v ≤ 4 := by
  simp only [lf_implied_bonus] at h
  repeat' (first
    | exact Option.noConfusion h
    | (simp only [Option.some.injEq, ABSTAIN, TIER_1_LOW, TIER_2_AVERAGE, TIER_3_GOOD,
        TIER_4_EXCELLENT, TIER_5_ELITE] at h; omega)
    | split at h)

/-- Any vote the function `lf_early_finish` returns (rather than raises) lies in
the legal vote set \x7b-1, 0, 1, 2, 3, 4\x7d. -/
lemma lf_early_finish_vote_range (obs : Obs) (v : ℤ) (h : lf_early_finish obs = some v) :
    -1 ≤ v ∧ v ≤ 4 := by
  simp only [lf_early_finish] at h
  repeat' (first
    | exact Option.noConfusion h
    | (simp only [Option.some.injEq, ABSTAIN, TIER_1_LOW, TIER_2_AVERAGE, TIER_3_GOOD,
        TIER_4_EXCELLENT, TIER_5_ELITE] at h; omega)
    | split at h)

/-- Any vote the function `lf_high_volume_competitive` returns (rather than raises) lies in
the legal vote set \x7b-1, 0, 1, 2, 3, 4\x7d. -/
lemma lf_high_volume_competitive_vote_range (obs : Obs) (v : ℤ) (h : lf_high_volume_competitive obs = some v) :
    -1 ≤ v ∧ v ≤ 4 := by
  simp only [lf_high_volume_competitive] at h
  repeat' (first
    | exact Option.noConfusion h
    | (simp only [Option.some.injEq, ABSTAIN, TIER_1_LOW, TIER_2_AVERAGE, TIER_3_GOOD,
        TIER_4_EXCELLENT, TIER_5_ELITE] at h; omega)
    | split at h)

/-- Any vote the function `lf_high_volume_zscore` returns (rather than raises) lies in
the legal vote set \x7b-1, 0, 1, 2, 3, 4\x7d. -/
lemma lf_high_volume_zscore_vote_range (obs : Obs) (v : ℤ) (h : lf_high_volume_zscore obs = some v) :
    -1 ≤ v ∧ v ≤ 4 := by
  simp only [lf_high_volume_zscore] at h
  repeat' (first
    | exact Option.noConfusion h
    | (simp only [Option.some.injEq, ABSTAIN, TIER_1_LOW, TIER_2_AVERAGE, TIER_3_GOOD,
        TIER_4_EXCELLENT, TIER_5_ELITE] at h; omega)
    | split at h)

/-- Any vote the function `lf_finish_with_action` returns (rather than raises) lies in
the legal vote set \x7b-1, 0, 1, 2, 3, 4\x7d. -/
lemma lf_finish_with_action_vote_range (obs : Obs) (v : ℤ) (h : lf_finish_with_action obs = some v) :
    -1 ≤ v ∧ v ≤ 4 := by
  simp only [lf_finish_with_action] at h
  repeat' (first
    | exact Option.noConfusion h
    | (simp only [Option.some.injEq, ABSTAIN, TIER_1_LOW, TIER_2_AVERAGE, TIER_3_GOOD,
        TIER_4_EXCELLENT, TIER_5_ELITE] at h; omega)
    | split at h)

/-- Any vote the function `lf_any_finish` returns (rather than raises) lies in
the legal vote set \x7b-1, 0, 1, 2, 3, 4\x7d. -/
lemma lf_any_finish_vote_range (obs : Obs) (v : ℤ) (h : lf_any_finish obs = some v) :
    -1 ≤ v ∧ v ≤ 4 := by
  simp only [lf_any_finish] at h
  repeat' (first
    | exact Option.noConfusion h
    | (simp only [Option.some.injEq, ABSTAIN, TIER_1_LOW, TIER_2_AVERAGE, TIER_3_GOOD,
        TIER_4_EXCELLENT, TIER_5_ELITE] at h; omega)
    | split at h)

/-- Any vote the function `lf_knockdown_present` returns (rather than raises) lies in
the legal vote set \x7b-1, 0, 1, 2, 3, 4\x7d. -/
lemma lf_knockdown_present_vote_range (obs : Obs) (v : ℤ) (h : lf_knockdown_present obs = some v) :
    -1 ≤ v ∧ v ≤ 4 := by
  simp only [lf_knockdown_present] at h
  repeat' (first
    | exact Option.noConfusion h
    | (simp only [Option.some.injEq, ABSTAIN, TIER_1_LOW, TIER_2_AVERAGE, TIER_3_GOOD,
        TIER_4_EXCELLENT, TIER_5_ELITE] at h; omega)
    | split at h)

/-- Any vote the function `lf_low_volume` returns (rather than raises) lies in
the legal vote set \x7b-1, 0, 1, 2, 3, 4\x7d. -/
lemma lf_low_volume_vote_range (obs : Obs) (v : ℤ) (h : lf_low_volume obs = some v) :
    -1 ≤ v ∧ v ≤ 4 := by
  simp only [lf_low_volume] at h
  repeat' (first
    | exact Option.noConfusion h
    | (simp only [Option.some.injEq, ABSTAIN, TIER_1_LOW, TIER_2_AVERAGE, TIER_3_GOOD,
        TIER_4_EXCELLENT, TIER_5_ELITE] at h; omega)
    | split at h)

/-- Any vote the function `lf_one_sided_grappling` returns (rather than raises) lies in
the legal vote set \x7b-1, 0, 1, 2, 3, 4\x7d. -/
lemma lf_one_sided_grappling_vote_range (obs : Obs) (v : ℤ) (h : lf_one_sided_grappling obs = some v) :
    -1 ≤ v ∧ v ≤ 4 := by
  simp only [lf_one_sided_grappling] at h
  repeat' (first
    | exact Option.noConfusion h
    | (simp only [Option.some.injEq, ABSTAIN, TIER_1_LOW, TIER_2_AVERAGE, TIER_3_GOOD,
        TIER_4_EXCELLENT, TIER_5_ELITE] at h; omega)
    | split at h)

/-- Any vote the function `lf_decision_low_action` returns (rather than raises) lies in
the legal vote set \x7b-1, 0, 1, 2, 3, 4\x7d. -/
lemma lf_decision_low_action_vote_range (obs : Obs) (v : ℤ) (h : lf_decision_low_action obs = some v) :
    -1 ≤ v ∧ v ≤ 4 := by
  simp only [lf_decision_low_action] at h
  repeat' (first
    | exact Option.noConfusion h
    | (simp only [Option.some.injEq, ABSTAIN, TIER_1_LOW, TIER_2_AVERAGE, TIER_3_GOOD,
        TIER_4_EXCELLENT, TIER_5_ELITE] at h; omega)
    | split at h)

/-- Any vote returned (rather than raised) by a registered labeling function
lies in the legal vote set. -/
lemma lf_mem_vote_range (obs : Obs) (lf : Obs → Option ℤ)
    (hlf : lf ∈ LABELING_FUNCTIONS) (v : ℤ) (h : lf obs = some v) :
    -1 ≤ v ∧ v ≤ 4 := by
  simp only [LABELING_FUNCTIONS, List.mem_cons, List.not_mem_nil, or_false] at hlf
  rcases hlf with h1|h1|h1|h1|h1|h1|h1|h1|h1|h1|h1|h1 <;> subst h1
  · exact lf_fotn_bonus_vote_range obs v h
  · exact lf_potn_bonus_vote_range obs v h
  · exact lf_implied_bonus_vote_range obs v h
  · exact lf_early_finish_vote_range obs v h
  · exact lf_high_volume_competitive_vote_range obs v h
  · exact lf_high_volume_zscore_vote_range obs v h
  · exact lf_finish_with_action_vote_range obs v h
  · exact lf_any_finish_vote_range obs v h
  · exact lf_knockdown_present_vote_range obs v h
  · exact lf_low_volume_vote_range obs v h
  · exact lf_one_sided_grappling_vote_range obs v h
  · exact lf_decision_low_action_vote_range obs v h

/-- The cell the builder records for a registered function on any
observation (the vote, or abstain when the function raises) lies in the
legal vote set. -/
lemma lf_cell_range (obs : Obs) (lf : Obs → Option ℤ)
    (hlf : lf ∈ LABELING_FUNCTIONS) :
    -1 ≤ (lf obs).getD ABSTAIN ∧ (lf obs).getD ABSTAIN ≤ 4 := by
  cases hv : lf obs with
  | none => simp only [Option.getD_none, ABSTAIN]; omega
  | some v => simpa using lf_mem_vote_range obs lf hlf v hv

/-- Claim C4 (amended): a registered labeling function applied to an
arbitrary observation either returns a vote in the legal set or raises
(modelled as `none`); the conversion of the raise to an abstain happens at
the vote-matrix builder boundary — not inside the function — so the cell
value recorded for any function and any observation is in the legal set. -/
theorem c4_lf_vote_range_amended (obs : Obs) (lf : Obs → Option ℤ)
    (hlf : lf ∈ LABELING_FUNCTIONS) :
    (∀ v, lf obs = some v → -1 ≤ v ∧ v ≤ 4) ∧
    (-1 ≤ (lf obs).getD ABSTAIN ∧ (lf obs).getD ABSTAIN ≤ 4) :=
  ⟨fun v h => lf_mem_vote_range obs lf hlf v h, lf_cell_range obs lf hlf⟩

/-- Witness for C4 (amended) at the first registered function and the
malformed observation. -/
theorem c4_lf_vote_range_amended_witness :
    (∀ v, lf_fotn_bonus obs_malformed = some v → -1 ≤ v ∧ v ≤ 4) ∧
    (-1 ≤ (lf_fotn_bonus obs_malformed).getD ABSTAIN ∧
      (lf_fotn_bonus obs_malformed).getD ABSTAIN ≤ 4) :=
  c4_lf_vote_range_amended obs_malformed lf_fotn_bonus (by simp [LABELING_FUNCTIONS])

/-- Claim C6 (amended): the vote matrix builder returns one row per input
observation, every row has exactly 12 cells (one per registered function),
and every cell is a legal vote — a raising function is recorded as abstain
in exactly that cell, so the batch always completes.  (The source logs
nothing on a failure; the logging half of the claim is refuted by the
counterexample.) -/
theorem c6_builder_shape_amended (df : List Obs) :
    (apply_labeling_functions df).length = df.length ∧
    (∀ row ∈ apply_labeling_functions df, row.length = 12) ∧
    (∀ row ∈ apply_labeling_functions df, ∀ v ∈ row, -1 ≤ v ∧ v ≤ 4) := by
  refine ⟨by simp [apply_labeling_functions], ?_, ?_⟩
  · intro row hrow
    simp only [apply_labeling_functions, List.mem_map] at hrow
    obtain ⟨obs, _, rfl⟩ := hrow
    simp [LABELING_FUNCTIONS]
  · intro row hrow v hv
    simp only [apply_labeling_functions, List.mem_map] at hrow
    obtain ⟨obs, _, rfl⟩ := hrow
    simp only [List.mem_map] at hv
    obtain ⟨lf, hlf, rfl⟩ := hv
    exact lf_cell_range obs lf hlf

/-- Witness for C6 (amended) on the one-observation batch containing the
malformed observation: one row, twelve cells, the raising cell legal. -/
theorem c6_builder_shape_amended_witness :
    ([[-1, -1, -1, -1, -1, -1, -1, 2, -1, -1, -1, -1]] : List (List ℤ)).length =
      [obs_malformed].length ∧
    ([-1, -1, -1, -1, -1, -1, -1, 2, -1, -1, -1, -1] : List ℤ).length = 12 ∧
    (-1 ≤ (2 : ℤ) ∧ (2 : ℤ) ≤ 4) := by
  have h := c6_builder_shape_amended [obs_malformed]
  have heq : apply_labeling_functions [obs_malformed] =
      [[-1, -1, -1, -1, -1, -1, -1, 2, -1, -1, -1, -1]] := rfl
  rw [heq] at h
  exact ⟨h.1, h.2.1 [-1, -1, -1, -1, -1, -1, -1, 2, -1, -1, -1, -1] (by simp),
    h.2.2 [-1, -1, -1, -1, -1, -1, -1, 2, -1, -1, -1, -1] (by simp) 2 (by decide)⟩

/-- Specification of the fold inside `mostCommon` (Python
`Counter.most_common(1)` with a stable sort): the result dominates the seed
and every candidate in count, and it is either the seed itself or a
candidate that strictly beats the seed and every candidate before it. -/
lemma foldl_pick_spec (cnt : ℤ → ℕ) :
    ∀ (ks : List ℤ) (k : ℤ),
      cnt k ≤ cnt (ks.foldl (fun best t => if cnt t > cnt best then t else best) k) ∧
      (∀ t ∈ ks, cnt t ≤ cnt (ks.foldl (fun best t => if cnt t > cnt best then t else best) k)) ∧
      (ks.foldl (fun best t => if cnt t > cnt best then t else best) k = k ∨
        ∃ pre suf,
          ks = pre ++ (ks.foldl (fun best t => if cnt t > cnt best then t else best) k) :: suf ∧
          cnt k < cnt (ks.foldl (fun best t => if cnt t > cnt best then t else best) k) ∧
          ∀ t ∈ pre, cnt t < cnt (ks.foldl (fun best t => if cnt t > cnt best then t else best) k)) := by
  intro ks
  induction ks with
  | nil => intro k; exact ⟨le_refl _, by simp, Or.inl rfl⟩
  | cons t ts ih =>
    intro k
    simp only [List.foldl_cons]
    by_cases hstep : cnt t > cnt k
    · rw [if_pos hstep]
      obtain ⟨ih1, ih2, ih3⟩ := ih t
      refine ⟨le_of_lt (lt_of_lt_of_le hstep ih1), ?_, ?_⟩
      · intro u hu
        rcases List.mem_cons.mp hu with h | h
        · exact h ▸ ih1
        · exact ih2 u h
      · rcases ih3 with h | ⟨pre, suf, hps, hlt, hpre⟩
        · right
          refine ⟨[], ts, by rw [h]; rfl, by rw [h]; exact hstep, by simp⟩
        · right
          refine ⟨t :: pre, suf, by rw [List.cons_append, ← hps], lt_trans hstep hlt, ?_⟩
          intro u hu
          rcases List.mem_cons.mp hu with h | h
          · exact h ▸ hlt
          · exact hpre u h
    · rw [if_neg hstep]
      push_neg at hstep
      obtain ⟨ih1, ih2, ih3⟩ := ih k
      refine ⟨ih1, ?_, ?_⟩
      · intro u hu
        rcases List.mem_cons.mp hu with h | h
        · exact h ▸ le_trans hstep ih1
        · exact ih2 u h
      · rcases ih3 with h | ⟨pre, suf, hps, hlt, hpre⟩
        · exact Or.inl h
        · right
          refine ⟨t :: pre, suf, by rw [List.cons_append, ← hps], hlt, ?_⟩
          intro u hu
          rcases List.mem_cons.mp hu with h | h
          · exact h ▸ lt_of_le_of_lt hstep hlt
          · exact hpre u h

/-- Membership in `firstOccsAux`: exactly the values of the list that are
not in the seen accumulator. -/
lemma mem_firstOccsAux : ∀ (xs seen : List ℤ) (a : ℤ),
    a ∈ firstOccsAux xs seen ↔ a ∈ xs ∧ a ∉ seen := by
  intro xs
  induction xs with
  | nil => intro seen a; simp [firstOccsAux]
  | cons x rest ih =>
    intro seen a
    simp only [firstOccsAux]
    by_cases hx : x ∈ seen
    · rw [if_pos hx, ih]
      constructor
      · rintro ⟨ha, hna⟩
        exact ⟨List.mem_cons_of_mem _ ha, hna⟩
      · rintro ⟨ha, hna⟩
        rcases List.mem_cons.mp ha with h | h
        · exact absurd (h ▸ hx) hna
        · exact ⟨h, hna⟩
    · rw [if_neg hx]
      simp only [List.mem_cons, ih]
      constructor
      · rintro (h | ⟨h1, h2⟩)
        · exact ⟨Or.inl h, h ▸ hx⟩
        · exact ⟨Or.inr h1, fun hseen => h2 (Or.inr hseen)⟩
      · rintro ⟨h1, h2⟩
        by_cases hax : a = x
        · exact Or.inl hax
        · rcases h1 with h1 | h1
          · exact absurd h1 hax
          · refine Or.inr ⟨h1, fun hmem => ?_⟩
            rcases hmem with h | h
            · exact hax h
            · exact h2 h

/-- The keys listed by `firstOccsAux` appear in strictly increasing order of
their first position in the scanned list. -/
lemma pairwise_firstIdx_firstOccsAux : ∀ (xs seen : List ℤ),
    (firstOccsAux xs seen).Pairwise (fun a b => firstIdx xs a < firstIdx xs b) := by
  intro xs
  induction xs with
  | nil => intro seen; simp [firstOccsAux]
  | cons x rest ih =>
    intro seen
    simp only [firstOccsAux]
    by_cases hx : x ∈ seen
    · rw [if_pos hx]
      refine List.Pairwise.imp_of_mem ?_ (ih seen)
      intro a b ha hb hab
      have hamem := (mem_firstOccsAux rest seen a).mp ha
      have hbmem := (mem_firstOccsAux rest seen b).mp hb
      have hax : ¬ (x = a) := fun he => hamem.2 (he ▸ hx)
      have hbx : ¬ (x = b) := fun he => hbmem.2 (he ▸ hx)
      simp only [firstIdx]
      rw [if_neg hax, if_neg hbx]
      omega
    · rw [if_neg hx]
      rw [List.pairwise_cons]
      constructor
      · intro b hb
        have hbmem := (mem_firstOccsAux rest (x :: seen) b).mp hb
        have hbx : ¬ (x = b) := fun he => hbmem.2 (he ▸ List.mem_cons_self x seen)
        simp only [firstIdx]
        rw [if_pos trivial, if_neg hbx]
        omega
      · refine List.Pairwise.imp_of_mem ?_ (ih (x :: seen))
        intro a b ha hb hab
        have hamem := (mem_firstOccsAux rest (x :: seen) a).mp ha
        have hbmem := (mem_firstOccsAux rest (x :: seen) b).mp hb
        have hax : ¬ (x = a) := fun he => hamem.2 (he ▸ List.mem_cons_self x seen)
        have hbx : ¬ (x = b) := fun he => hbmem.2 (he ▸ List.mem_cons_self x seen)
        simp only [firstIdx]
        rw [if_neg hax, if_neg hbx]
        omega

/-- From a pairwise-related list split as `l1 ++ a :: l2`, the element `a`
is related to every element of `l2`. -/
lemma rel_of_pairwise_append {R : ℤ → ℤ → Prop} {l l1 l2 : List ℤ} {a b : ℤ}
    (hp : l.Pairwise R) (hl : l = l1 ++ a :: l2) (hb : b ∈ l2) : R a b := by
  subst hl
  have hsub : [a, b].Sublist (l1 ++ a :: l2) := by
    have h1 : [a, b].Sublist (a :: l2) :=
      List.Sublist.cons₂ a (List.singleton_sublist.mpr hb)
    exact h1.trans (List.sublist_append_right l1 (a :: l2))
  have hpair : ([a, b]).Pairwise R := hp.sublist hsub
  exact (List.pairwise_cons.mp hpair).1 b (List.mem_singleton_self b)

/-- Specification of `mostCommon` (Python `Counter(vs).most_common(1)`):
on a nonempty list it returns a value of the list whose count is maximal,
and among the values of maximal count it is the one encountered first. -/
lemma mostCommon_spec (vs : List ℤ) (hne : vs ≠ []) :
    mostCommon vs ∈ vs ∧
    (∀ t : ℤ, vs.count t ≤ vs.count (mostCommon vs)) ∧
    (∀ t ∈ vs, vs.count t = vs.count (mostCommon vs) →
      firstIdx vs (mostCommon vs) ≤ firstIdx vs t) := by
  obtain ⟨x, rest, rfl⟩ := List.exists_cons_of_ne_nil hne
  have hfo : firstOccs (x :: rest) = x :: firstOccsAux rest [x] := by
    simp [firstOccs, firstOccsAux]
  have hmc : mostCommon (x :: rest) =
      (firstOccsAux rest [x]).foldl
        (fun best t =>
          if (x :: rest).count t > (x :: rest).count best then t else best) x := by
    rw [mostCommon, hfo]
  obtain ⟨f1, f2, f3⟩ :=
    foldl_pick_spec (fun t => (x :: rest).count t) (firstOccsAux rest [x]) x
  rw [← hmc] at f1 f2 f3
  have hmem_all : ∀ t, t ∈ x :: rest → t = x ∨ t ∈ firstOccsAux rest [x] := by
    intro t ht
    by_cases htx : t = x
    · exact Or.inl htx
    · right
      rcases List.mem_cons.mp ht with h | h
      · exact absurd h htx
      · exact (mem_firstOccsAux rest [x] t).mpr ⟨h, by simp [htx]⟩
  have hcmax : ∀ t : ℤ, (x :: rest).count t ≤ (x :: rest).count (mostCommon (x :: rest)) := by
    intro t
    by_cases ht : t ∈ x :: rest
    · rcases hmem_all t ht with h | h
      · exact h ▸ f1
      · exact f2 t h
    · rw [List.count_eq_zero.mpr ht]
      exact Nat.zero_le _
  have hmemmc : mostCommon (x :: rest) ∈ x :: rest := by
    rcases f3 with h | ⟨pre, suf, hps, hlt, hpre⟩
    · rw [h]
      exact List.mem_cons_self x rest
    · have : mostCommon (x :: rest) ∈ firstOccsAux rest [x] := by
        rw [hps]
        exact List.mem_append_right pre (List.mem_cons_self _ _)
      exact List.mem_cons_of_mem x ((mem_firstOccsAux rest [x] _).mp this).1
  refine ⟨hmemmc, hcmax, ?_⟩
  intro t ht htc
  rcases f3 with h | ⟨pre, suf, hps, hlt, hpre⟩
  · rw [h]
    simp only [firstIdx, if_pos rfl]
    exact Nat.zero_le _
  · rcases hmem_all t ht with h | h
    · exfalso
      rw [h] at htc
      rw [htc] at hlt
      exact lt_irrefl _ hlt
    · rw [hps] at h
      rcases List.mem_append.mp h with h | h
      · exfalso
        have := hpre t h
        rw [htc] at this
        exact lt_irrefl _ this
      · rcases List.mem_cons.mp h with h | h
        · rw [h]
        · have hpair := pairwise_firstIdx_firstOccsAux (x :: rest) []
          have hdecomp : firstOccsAux (x :: rest) [] =
              (x :: pre) ++ mostCommon (x :: rest) :: suf := by
            have : firstOccsAux (x :: rest) [] = x :: firstOccsAux rest [x] := by
              simp [firstOccsAux]
            rw [this, hps]
            rfl
          have := rel_of_pairwise_append hpair hdecomp h
          exact le_of_lt this

/-- A list whose values all lie in {0,…,4} is exhausted by the counts of
0, 1, 2, 3 and 4. -/
lemma count_sum_eq_length (vs : List ℤ) (h : ∀ v ∈ vs, 0 ≤ v ∧ v ≤ 4) :
    vs.count 0 + vs.count 1 + vs.count 2 + vs.count 3 + vs.count 4 = vs.length := by
  induction vs with
  | nil => simp
  | cons v rest ih =>
    have hv := h v (List.mem_cons_self _ _)
    have hrest := ih fun u hu => h u (List.mem_cons_of_mem _ hu)
    obtain ⟨hv0, hv4⟩ := hv
    interval_cases v <;> simp [List.count_cons] <;> omega

/-- Unfolding of `majority_vote_row` on a row with no non-abstaining vote. -/
lemma majority_vote_row_of_nil (row : List ℤ)
    (h : row.filter (fun v => v ≠ ABSTAIN) = []) :
    majority_vote_row row = (TIER_2_AVERAGE, [0.1, 0.6, 0.2, 0.1, 0.0]) := by
  simp only [majority_vote_row, h]
  rfl

/-- Unfolding of `majority_vote_row` on a row with at least one
non-abstaining vote. -/
lemma majority_vote_row_of_ne_nil (row : List ℤ)
    (hne : row.filter (fun v => v ≠ ABSTAIN) ≠ []) :
    majority_vote_row row =
      (mostCommon (row.filter (fun v => v ≠ ABSTAIN)),
       (List.range 5).map (fun (tier : ℕ) =>
         ((row.filter (fun v => v ≠ ABSTAIN)).count ((tier : ℤ)) : ℚ) /
           ((row.filter (fun v => v ≠ ABSTAIN)).length : ℚ))) := by
  have hlen : ¬ (row.filter (fun v => v ≠ ABSTAIN)).length = 0 := by
    simpa [List.length_eq_zero] using hne
  simp only [majority_vote_row]
  rw [if_neg hlen]

/-- Entry lookup in a probability vector built over the five tiers. -/
lemma getD_map_range5 (f : ℕ → ℚ) (t : ℕ) (ht : t < 5) :
    ((List.range 5).map f).getD t 0 = f t := by
  interval_cases t <;> rfl

/-- The vote-share vector of a nonempty all-in-range vote list sums to 1. -/
lemma majority_probs_sum_one (vs : List ℤ) (hne : vs ≠ [])
    (hrange : ∀ v ∈ vs, 0 ≤ v ∧ v ≤ 4) :
    ((List.range 5).map (fun (tier : ℕ) =>
      ((vs.count ((tier : ℤ)) : ℚ) / (vs.length : ℚ)))).sum = 1 := by
  have hcnt := count_sum_eq_length vs hrange
  have hl0 : vs.length ≠ 0 := fun h => hne (List.length_eq_zero.mp h)
  have hlen : (vs.length : ℚ) ≠ 0 := Nat.cast_ne_zero.mpr hl0
  have h5 : List.range 5 = [0, 1, 2, 3, 4] := rfl
  rw [h5]
  simp only [List.map_cons, List.map_nil, List.sum_cons, List.sum_nil]
  push_cast
  field_simp
  have hcnt2 : vs.count 0 + (vs.count 1 + (vs.count 2 + (vs.count 3 + vs.count 4))) =
      vs.length := by omega
  exact_mod_cast hcnt2

/-- Claim C5: on a row with at least one non-abstaining vote, the
majority-vote label is a vote of the row whose count among non-abstainers
is maximal; among the tiers of maximal count it is the one encountered
first scanning the row in registry order; and the probability of each tier
is its vote count divided by the number of non-abstaining votes. -/
theorem c5_majority_modal_first_tie (row : List ℤ)
    (hne : row.filter (fun v => v ≠ ABSTAIN) ≠ []) :
    (majority_vote_row row).1 ∈ row.filter (fun v => v ≠ ABSTAIN) ∧
    (∀ t : ℤ, (row.filter (fun v => v ≠ ABSTAIN)).count t ≤
      (row.filter (fun v => v ≠ ABSTAIN)).count (majority_vote_row row).1) ∧
    (∀ t ∈ row.filter (fun v => v ≠ ABSTAIN),
      (row.filter (fun v => v ≠ ABSTAIN)).count t =
        (row.filter (fun v => v ≠ ABSTAIN)).count (majority_vote_row row).1 →
      firstIdx (row.filter (fun v => v ≠ ABSTAIN)) (majority_vote_row row).1 ≤
        firstIdx (row.filter (fun v => v ≠ ABSTAIN)) t) ∧
    (∀ t : ℕ, t < 5 →
      (majority_vote_row row).2.getD t 0 =
        ((row.filter (fun v => v ≠ ABSTAIN)).count ((t : ℤ)) : ℚ) /
          ((row.filter (fun v => v ≠ ABSTAIN)).length : ℚ)) := by
  have hrw := majority_vote_row_of_ne_nil row hne
  obtain ⟨m1, m2, m3⟩ := mostCommon_spec (row.filter (fun v => v ≠ ABSTAIN)) hne
  rw [hrw]
  exact ⟨m1, m2, m3, fun t ht =>
    getD_map_range5 (fun (tier : ℕ) =>
      ((row.filter (fun v => v ≠ ABSTAIN)).count ((tier : ℤ)) : ℚ) /
        ((row.filter (fun v => v ≠ ABSTAIN)).length : ℚ)) t ht⟩

/-- Witness for C5 on the vote row of the tie observation: non-abstaining
votes [2, 0, 1], label 2 with all counts equal to 1, vote shares 1/3. -/
theorem c5_majority_modal_first_tie_witness :
    (majority_vote_row [-1, -1, -1, -1, -1, -1, -1, -1, 2, 0, -1, 1]).1 ∈
      [-1, -1, -1, -1, -1, -1, -1, -1, 2, 0, -1, 1].filter (fun v => v ≠ ABSTAIN) ∧
    (∀ t : ℤ,
      ([-1, -1, -1, -1, -1, -1, -1, -1, 2, 0, -1, 1].filter (fun v => v ≠ ABSTAIN)).count t ≤
      ([-1, -1, -1, -1, -1, -1, -1, -1, 2, 0, -1, 1].filter (fun v => v ≠ ABSTAIN)).count
        (majority_vote_row [-1, -1, -1, -1, -1, -1, -1, -1, 2, 0, -1, 1]).1) ∧
    (∀ t ∈ [-1, -1, -1, -1, -1, -1, -1, -1, 2, 0, -1, 1].filter (fun v => v ≠ ABSTAIN),
      ([-1, -1, -1, -1, -1, -1, -1, -1, 2, 0, -1, 1].filter (fun v => v ≠ ABSTAIN)).count t =
        ([-1, -1, -1, -1, -1, -1, -1, -1, 2, 0, -1, 1].filter (fun v => v ≠ ABSTAIN)).count
          (majority_vote_row [-1, -1, -1, -1, -1, -1, -1, -1, 2, 0, -1, 1]).1 →
      firstIdx ([-1, -1, -1, -1, -1, -1, -1, -1, 2, 0, -1, 1].filter (fun v => v ≠ ABSTAIN))
          (majority_vote_row [-1, -1, -1, -1, -1, -1, -1, -1, 2, 0, -1, 1]).1 ≤
        firstIdx ([-1, -1, -1, -1, -1, -1, -1, -1, 2, 0, -1, 1].filter (fun v => v ≠ ABSTAIN)) t) ∧
    (∀ t : ℕ, t < 5 →
      (majority_vote_row [-1, -1, -1, -1, -1, -1, -1, -1, 2, 0, -1, 1]).2.getD t 0 =
        (([-1, -1, -1, -1, -1, -1, -1, -1, 2, 0, -1, 1].filter
            (fun v => v ≠ ABSTAIN)).count ((t : ℤ)) : ℚ) /
          (([-1, -1, -1, -1, -1, -1, -1, -1, 2, 0, -1, 1].filter
            (fun v => v ≠ ABSTAIN)).length : ℚ)) :=
  c5_majority_modal_first_tie [-1, -1, -1, -1, -1, -1, -1, -1, 2, 0, -1, 1] (by decide)

/-- The diffuse default vector of the majority aggregator sums to 1 and its
Tier 2 entry (0.6) dominates all entries. -/
lemma maj_default_vec_spec :
    ([0.1, 0.6, 0.2, 0.1, 0.0] : List ℚ).sum = 1 ∧
    ∀ q ∈ ([0.1, 0.6, 0.2, 0.1, 0.0] : List ℚ), q ≤ (0.6 : ℚ) := by
  refine ⟨by norm_num, ?_⟩
  intro q hq
  fin_cases hq <;> norm_num

/-- Non-abstaining votes of an in-range row lie in {0,…,4}. -/
lemma filter_votes_range (row : List ℤ) (hv : ∀ v ∈ row, -1 ≤ v ∧ v ≤ 4) :
    ∀ v ∈ row.filter (fun u => u ≠ ABSTAIN), 0 ≤ v ∧ v ≤ 4 := by
  intro v hmem
  have h := List.mem_filter.mp hmem
  have hb := hv v h.1
  have hnz : v ≠ -1 := by simpa [ABSTAIN] using h.2
  exact ⟨by omega, hb.2⟩

/-- On an in-range row with a non-abstaining vote, the probability the
majority aggregator assigns to its own label dominates the whole vector. -/
lemma majority_label_attains_max (row : List ℤ)
    (hv : ∀ v ∈ row, -1 ≤ v ∧ v ≤ 4)
    (hne : row.filter (fun v => v ≠ ABSTAIN) ≠ []) :
    ∀ q ∈ (majority_vote_row row).2,
      q ≤ (majority_vote_row row).2.getD (majority_vote_row row).1.toNat 0 := by
  have hrange := filter_votes_range row hv
  obtain ⟨m1, m2, m3⟩ := mostCommon_spec (row.filter (fun v => v ≠ ABSTAIN)) hne
  have hlabel := hrange _ m1
  have h1 : (majority_vote_row row).1 = mostCommon (row.filter (fun v => v ≠ ABSTAIN)) := by
    rw [majority_vote_row_of_ne_nil row hne]
  have h2 : (majority_vote_row row).2 =
      (List.range 5).map (fun (tier : ℕ) =>
        ((row.filter (fun v => v ≠ ABSTAIN)).count ((tier : ℤ)) : ℚ) /
          ((row.filter (fun v => v ≠ ABSTAIN)).length : ℚ)) := by
    rw [majority_vote_row_of_ne_nil row hne]
  rw [h1, h2]
  intro q hq
  rw [List.mem_map] at hq
  obtain ⟨t, htmem, rfl⟩ := hq
  have hmc5 : (mostCommon (row.filter (fun v => v ≠ ABSTAIN))).toNat < 5 := by omega
  rw [getD_map_range5 _ _ hmc5]
  have hcast : (((mostCommon (row.filter (fun v => v ≠ ABSTAIN))).toNat : ℕ) : ℤ) =
      mostCommon (row.filter (fun v => v ≠ ABSTAIN)) := Int.toNat_of_nonneg hlabel.1
  rw [hcast]
  have hl0 : (row.filter (fun v => v ≠ ABSTAIN)).length ≠ 0 :=
    fun h => hne (List.length_eq_zero.mp h)
  have hlen0 : (0 : ℚ) < ((row.filter (fun v => v ≠ ABSTAIN)).length : ℚ) := by
    exact_mod_cast Nat.pos_of_ne_zero hl0
  have hcle : ((row.filter (fun v => v ≠ ABSTAIN)).count ((t : ℤ)) : ℚ) ≤
      ((row.filter (fun v => v ≠ ABSTAIN)).count
        (mostCommon (row.filter (fun v => v ≠ ABSTAIN))) : ℚ) := by
    exact_mod_cast m2 ((t : ℤ))
  exact div_le_div_of_nonneg_right hcle (le_of_lt hlen0)

/-- Claim C1 (amended): for every vote row with entries in {-1,…,4}, both
strategies emit probability vectors summing to exactly 1 (well within the
1e-6 tolerance), and the emitted label attains the maximum of its vector.
For the hierarchical strategy the label moreover equals the first argmax
index; for majority vote only max-attainment holds, because a tie can be
resolved to a tier different from the first maximal index. -/
theorem c1_sum_one_label_max_amended (row : List ℤ)
    (hv : ∀ v ∈ row, -1 ≤ v ∧ v ≤ 4) :
    ((majority_vote_row row).2.sum = 1 ∧
      ∀ q ∈ (majority_vote_row row).2,
        q ≤ (majority_vote_row row).2.getD (majority_vote_row row).1.toNat 0) ∧
    ((hierarchical_row row).2.sum = 1 ∧
      (hierarchical_row row).1 = ((spec_argmax (hierarchical_row row).2 : ℕ) : ℤ)) := by
  constructor
  · by_cases hne : row.filter (fun v => v ≠ ABSTAIN) = []
    · rw [majority_vote_row_of_nil row hne]
      exact ⟨maj_default_vec_spec.1, maj_default_vec_spec.2⟩
    · refine ⟨?_, majority_label_attains_max row hv hne⟩
      have h2 : (majority_vote_row row).2 =
          (List.range 5).map (fun (tier : ℕ) =>
            ((row.filter (fun v => v ≠ ABSTAIN)).count ((tier : ℤ)) : ℚ) /
              ((row.filter (fun v => v ≠ ABSTAIN)).length : ℚ)) := by
        rw [majority_vote_row_of_ne_nil row hne]
      rw [h2]
      exact majority_probs_sum_one _ hne (filter_votes_range row hv)
  · rcases hierarchical_row_cases row with h|h|h|h|h|h|h|h|h|h|h|h|h <;> rw [h]
    · exact ⟨by norm_num, by norm_num [spec_argmax, TIER_5_ELITE]⟩
    · exact ⟨by norm_num, by norm_num [spec_argmax, TIER_4_EXCELLENT]⟩
    · exact ⟨by norm_num, by norm_num [spec_argmax, TIER_4_EXCELLENT]⟩
    · exact ⟨by norm_num, by norm_num [spec_argmax, TIER_5_ELITE]⟩
    · exact ⟨by norm_num, by norm_num [spec_argmax, TIER_4_EXCELLENT]⟩
    · exact ⟨by norm_num, by norm_num [spec_argmax, TIER_4_EXCELLENT]⟩
    · exact ⟨by norm_num, by norm_num [spec_argmax, TIER_3_GOOD]⟩
    · exact ⟨by norm_num, by norm_num [spec_argmax, TIER_3_GOOD]⟩
    · exact ⟨by norm_num, by norm_num [spec_argmax, TIER_3_GOOD]⟩
    · exact ⟨by norm_num, by norm_num [spec_argmax, TIER_1_LOW]⟩
    · exact ⟨by norm_num, by norm_num [spec_argmax, TIER_2_AVERAGE]⟩
    · exact ⟨by norm_num, by norm_num [spec_argmax, TIER_2_AVERAGE]⟩
    · exact ⟨by norm_num, by norm_num [spec_argmax, TIER_2_AVERAGE]⟩

/-- Witness for C1 (amended) on the vote row of the tie observation. -/
theorem c1_sum_one_label_max_amended_witness :
    ((majority_vote_row [-1, -1, -1, -1, -1, -1, -1, -1, 2, 0, -1, 1]).2.sum = 1 ∧
      ∀ q ∈ (majority_vote_row [-1, -1, -1, -1, -1, -1, -1, -1, 2, 0, -1, 1]).2,
        q ≤ (majority_vote_row [-1, -1, -1, -1, -1, -1, -1, -1, 2, 0, -1, 1]).2.getD
          (majority_vote_row [-1, -1, -1, -1, -1, -1, -1, -1, 2, 0, -1, 1]).1.toNat 0) ∧
    ((hierarchical_row [-1, -1, -1, -1, -1, -1, -1, -1, 2, 0, -1, 1]).2.sum = 1 ∧
      (hierarchical_row [-1, -1, -1, -1, -1, -1, -1, -1, 2, 0, -1, 1]).1 =
        ((spec_argmax (hierarchical_row [-1, -1, -1, -1, -1, -1, -1, -1, 2, 0, -1, 1]).2 : ℕ) : ℤ)) :=
  c1_sum_one_label_max_amended [-1, -1, -1, -1, -1, -1, -1, -1, 2, 0, -1, 1] (by decide)

/-- Witness for C10 at the concrete all-abstain row (terminal fallback,
confidence exactly 0.5). -/
theorem c10_hierarchical_confidence_at_least_half_witness :
    (1 : ℚ) / 2 ≤ (hierarchical_row (List.replicate 12 ABSTAIN)).2.getD
      (hierarchical_row (List.replicate 12 ABSTAIN)).1.toNat 0 ∧
    ∀ q ∈ (hierarchical_row (List.replicate 12 ABSTAIN)).2,
      q ≤ (hierarchical_row (List.replicate 12 ABSTAIN)).2.getD
        (hierarchical_row (List.replicate 12 ABSTAIN)).1.toNat 0 :=
  c10_hierarchical_confidence_at_least_half (List.replicate 12 ABSTAIN)
